import Mathlib

/-!
Shallow embedding of the core analysis modules of the weibull-reliability-analyzer
repository (`modules/analysis/weibull_analysis.py`, `reliability_metrics.py`,
`statistical_tests.py`), together with theorems settling the specification
claims about them.

Conventions of the embedding:
- Python floats are modelled as real numbers (`ℝ`); `numpy` power `**` on
  floats is `Real.rpow`, `np.log` is `Real.log`, `np.exp` is `Real.exp`.
- A pandas `DataFrame` with columns `tempo_falha`/`status` is a `List Row`.
- Python exceptions are modelled with `Except PyError`; code that cannot
  raise is a total function.
- External black-box library routines (the `scipy` Nelder-Mead optimizer,
  `scipy.stats.anderson`, `scipy.stats.kstest`, `scipy.stats.norm.ppf`) are
  passed in as parameters (oracles), so theorems quantify over their outcome;
  everything the repository itself computes is embedded concretely.
- Median ranks `(i - 0.3)/(n + 0.4)` are exact rationals, so the rank filter
  of the rank-regression path is decidable.
-/

namespace WRA

/-- Exceptions that the embedded code can signal.  `valueError` is raised by
`WeibullAnalysis.fit` for an unknown method string; `typeError` is what the
Python runtime raises when arithmetic is attempted on a non-float object.
The constructors `insufficientData` and `goodnessOfFit` are modelled from the
spec (§7 error taxonomy): no class named `InsufficientDataError` or
`GoodnessOfFitError` is defined anywhere under `src/`, but the constructors
are needed to state claims about those spec-named errors. -/
inductive PyError where
  | valueError (msg : String)
  | typeError
  | insufficientData
  | goodnessOfFit (test : String)
  deriving DecidableEq

/-- One row of the processed DataFrame handed to `WeibullAnalysis.__init__`:
a `tempo_falha` time value and a `status` code (1 = failure, 0 = censored). -/
structure Row where
  tempo_falha : ℝ
  status : ℤ

/-- Embeds `self.failures = df[df['status'] == 1]['tempo_falha'].values`
from `WeibullAnalysis.__init__`. -/
def failuresOf (df : List Row) : List ℝ :=
  (df.filter (fun r => r.status == 1)).map Row.tempo_falha

/-- Embeds `self.censored = df[df['status'] == 0]['tempo_falha'].values`
from `WeibullAnalysis.__init__`. -/
def censoredOf (df : List Row) : List ℝ :=
  (df.filter (fun r => r.status == 0)).map Row.tempo_falha

/-- Independent recursive formulation of the failure partition, used to state
claim C10 against `failuresOf`. -/
def selectByStatus (s : ℤ) : List Row → List ℝ
  | [] => []
  | r :: rs => if r.status = s then r.tempo_falha :: selectByStatus s rs
               else selectByStatus s rs

/-- Interpretation record returned by `WeibullAnalysis.get_interpretation`
(the formatted `beta_value` string field is presentation only and omitted). -/
structure Interpretation where
  failure_mode : String
  behavior : String
  recommendation : String

/-- Embeds `WeibullAnalysis.get_interpretation`: note the branch order of the
source — `if beta < 1` is tested before the `0.9 <= beta <= 1.1` band. -/
noncomputable def get_interpretation (beta : ℝ) : Interpretation :=
  if beta < 1 then
    { failure_mode := "Mortalidade Infantil"
      behavior := "Taxa de falha decrescente - falhas precoces são mais comuns"
      recommendation := "Considere burn-in ou seleção de componentes" }
  else if 0.9 ≤ beta ∧ beta ≤ 1.1 then
    { failure_mode := "Vida Útil (Falhas Aleatórias)"
      behavior := "Taxa de falha constante - falhas ocorrem aleatoriamente"
      recommendation := "Manutenção baseada em condição pode ser apropriada" }
  else
    { failure_mode := "Desgaste"
      behavior := "Taxa de falha crescente - falhas aumentam com o tempo"
      recommendation := "Manutenção preventiva baseada em tempo é recomendada" }

/-- Embeds `WeibullAnalysis.reliability`: `R(t) = exp(-(t/eta)**beta)`. -/
noncomputable def reliability (beta eta t : ℝ) : ℝ :=
  Real.exp (-((t / eta) ^ beta))

/-- Embeds `WeibullAnalysis.mean_life`: `eta * gamma(1 + 1/beta)` with the
Euler gamma function from `scipy.special`. -/
noncomputable def mean_life (beta eta : ℝ) : ℝ :=
  eta * Real.Gamma (1 + 1 / beta)

/-- Embeds `WeibullAnalysis.median_life`: `eta * (np.log(2)) ** (1/beta)`. -/
noncomputable def median_life (beta eta : ℝ) : ℝ :=
  eta * Real.log 2 ^ (1 / beta)

/-- Embeds `WeibullAnalysis.b_life`: `p = percentile/100`;
`eta * (-np.log(1 - p)) ** (1/beta)`. -/
noncomputable def b_life (beta eta percentile : ℝ) : ℝ :=
  eta * (-Real.log (1 - percentile / 100)) ^ (1 / beta)

/-- A Python value appearing in `ReliabilityMetrics._calculate_variance`:
either a float, or the frozen distribution object that calling
`scipy.stats.gamma(a)` returns (`reliability_metrics.py` imports `stats` from
`scipy`, not the `gamma` function from `scipy.special`). -/
inductive SciPyVal where
  | float (x : ℝ)
  | frozenGammaDist (a : ℝ)

/-- Embeds the call `stats.gamma(a)`: `scipy.stats.gamma` is a distribution
family, so calling it with a shape argument freezes a distribution object. -/
def stats_gamma (a : ℝ) : SciPyVal :=
  SciPyVal.frozenGammaDist a

/-- Python `**` on a `SciPyVal`: defined for floats, a `TypeError` on a frozen
distribution object (which implements no `__pow__`). -/
def SciPyVal.pyPow : SciPyVal → ℕ → Except PyError SciPyVal
  | SciPyVal.float x, k => Except.ok (SciPyVal.float (x ^ k))
  | SciPyVal.frozenGammaDist _, _ => Except.error PyError.typeError

/-- Python binary `-` on `SciPyVal`s: defined for floats, a `TypeError` if
either side is a frozen distribution object. -/
def SciPyVal.pySub : SciPyVal → SciPyVal → Except PyError SciPyVal
  | SciPyVal.float a, SciPyVal.float b => Except.ok (SciPyVal.float (a - b))
  | _, _ => Except.error PyError.typeError

/-- Embeds `ReliabilityMetrics._calculate_variance`:
`eta**2 * (stats.gamma(1 + 2/beta) - stats.gamma(1 + 1/beta)**2)`.
Python evaluates `stats.gamma(1 + 1/beta)**2` first, which raises `TypeError`
because the operand is a frozen distribution object, not a float. -/
noncomputable def calculate_variance (beta eta : ℝ) : Except PyError ℝ := do
  let sq ← (stats_gamma (1 + 1 / beta)).pyPow 2
  let diff ← (stats_gamma (1 + 2 / beta)).pySub sq
  match diff with
  | SciPyVal.float x => Except.ok (eta ^ 2 * x)
  | SciPyVal.frozenGammaDist _ => Except.error PyError.typeError

/-- The variance formula the spec states for the `MetricsBundle`:
`η²·(Γ(1+2/β) − Γ(1+1/β)²)` with the Euler gamma function. -/
noncomputable def variance_spec (beta eta : ℝ) : ℝ :=
  eta ^ 2 * (Real.Gamma (1 + 2 / beta) - Real.Gamma (1 + 1 / beta) ^ 2)

/-- Result record of `ReliabilityMetrics.mission_reliability`. -/
structure MissionResult where
  mission_time : ℝ
  required_reliability : ℝ
  actual_reliability : ℝ
  meets_requirement : Prop
  reliability_margin : ℝ
  time_for_required_reliability : ℝ

/-- Embeds `ReliabilityMetrics.mission_reliability`. -/
noncomputable def mission_reliability (beta eta mission_time required : ℝ) :
    MissionResult :=
  let actual := reliability beta eta mission_time
  { mission_time := mission_time
    required_reliability := required
    actual_reliability := actual
    meets_requirement := actual ≥ required
    reliability_margin := actual - required
    time_for_required_reliability :=
      if required < 1 then eta * (-Real.log required) ^ (1 / beta) else 0 }

/-- Embeds `np.sort` (ascending) on a float array. -/
noncomputable def npSort (xs : List ℝ) : List ℝ :=
  xs.mergeSort (fun a b => decide (a ≤ b))

/-- Embeds `np.min` on a (nonempty) float array. -/
noncomputable def npMin : List ℝ → ℝ
  | [] => 0
  | x :: xs => xs.foldl min x

/-- Embeds `np.max` on a (nonempty) float array. -/
noncomputable def npMax : List ℝ → ℝ
  | [] => 0
  | x :: xs => xs.foldl max x

/-- Embeds `(np.arange(1, n + 1) - 0.3) / (n + 0.4)` — the median-rank
plotting positions, as exact rationals. -/
def median_ranks (n : ℕ) : List ℚ :=
  (List.range n).map (fun i : ℕ => ((i : ℚ) + 1 - 0.3) / ((n : ℚ) + 0.4))

/-- Embeds the element-wise mask `(median_ranks > 0.001) & (median_ranks < 0.999)`. -/
def validRank (r : ℚ) : Bool :=
  decide (0.001 < r ∧ r < 0.999)

/-- Embeds numpy boolean-mask indexing `xs[mask]` (parallel arrays share one
mask in `_fit_rank_regression`). -/
def maskSelect {α : Type} (xs : List α) (mask : List Bool) : List α :=
  ((xs.zip mask).filter (fun p => p.2)).map Prod.fst

/-- Embeds `np.polyfit(x, y, 1)`: on an empty `x` numpy raises `TypeError`
(its guard demands a non-empty vector for x); otherwise the least-squares
normal equations of the degree-1 fit give the (slope, intercept) numpy
returns on full-rank input, with the division-by-zero convention of `ℝ`
standing in for the rank-deficient non-empty case. -/
noncomputable def polyfit1 (xs ys : List ℝ) : Except PyError (ℝ × ℝ) :=
  if xs.isEmpty then Except.error PyError.typeError
  else
    let m : ℝ := (xs.length : ℝ)
    let sx := xs.sum
    let sy := ys.sum
    let sxy := ((xs.zip ys).map (fun p => p.1 * p.2)).sum
    let sxx := (xs.map (fun x => x ^ 2)).sum
    let slope := (m * sxy - sx * sy) / (m * sxx - sx ^ 2)
    Except.ok (slope, (sy - slope * sx) / m)

/-- Embeds `WeibullAnalysis._fit_rank_regression`, mirroring the numpy steps:
sort; median ranks; one boolean mask applied to both parallel arrays;
`y = np.log(-np.log(1 - median_ranks))`, `x = np.log(sorted_failures)`;
`np.polyfit(x, y, 1)`; `beta = coeffs[0]`, `eta = np.exp(-coeffs[1]/beta)`;
then `beta = max(0.1, min(beta, 10))` and
`eta = max(np.min(sorted_failures)*0.5, min(eta, np.max(sorted_failures)*2))`
where `sorted_failures` has already been overwritten by its masked form.
An exception from `np.polyfit` (empty x, reachable with zero failures)
propagates out, which `Except.map` models. -/
noncomputable def fit_rank_regression (failures : List ℝ) : Except PyError (ℝ × ℝ) :=
  let sorted0 := npSort failures
  let n := sorted0.length
  let ranks0 := median_ranks n
  let valid_idx := ranks0.map validRank
  let ranks1 := maskSelect ranks0 valid_idx
  let sorted1 := maskSelect sorted0 valid_idx
  let y := ranks1.map (fun r => Real.log (-Real.log (1 - (r : ℝ))))
  let x := sorted1.map (fun t => Real.log t)
  Except.map (fun coeffs =>
      let beta := coeffs.1
      let eta := Real.exp (-coeffs.2 / beta)
      (max 0.1 (min beta 10),
       max (npMin sorted1 * 0.5) (min eta (npMax sorted1 * 2))))
    (polyfit1 x y)

/-- Formalizes the RR path as the spec words it (§4.1): sort the failures;
pair each with its median rank `(i − 0.3)/(n + 0.4)`; discard the pairs whose
rank lies outside `(0.001, 0.999)` — the rank together with its paired failure
time; linearize `y = ln(−ln(1 − rank))`, `x = ln(time)`; the ordinary
least-squares slope gives the shape and the intercept gives the scale via
`η = exp(−intercept/shape)`; clamp the shape to `[0.1, 10]` and the scale to
`[0.5·min, 2·max]` of the failure times remaining after the discard step. -/
noncomputable def rr_spec (failures : List ℝ) : Except PyError (ℝ × ℝ) :=
  let ts := npSort failures
  let pairs := ts.zip (median_ranks ts.length)
  let kept := pairs.filter (fun p => validRank p.2)
  let x := (kept.map Prod.fst).map (fun t => Real.log t)
  let y := (kept.map Prod.snd).map (fun r => Real.log (-Real.log (1 - (r : ℝ))))
  Except.map (fun coeffs =>
      let shape := coeffs.1
      let scale := Real.exp (-coeffs.2 / shape)
      (max 0.1 (min shape 10),
       max (npMin (kept.map Prod.fst) * 0.5)
         (min scale (npMax (kept.map Prod.fst) * 2))))
    (polyfit1 x y)

/-- Embeds `WeibullAnalysis._calculate_confidence_intervals`.  The call
`stats.norm.ppf(1 - alpha/2)` is a black-box scipy routine, passed in as the
oracle `ppf`. -/
noncomputable def calculate_confidence_intervals (beta eta confidence_level : ℝ)
    (ppf : ℝ → ℝ) (n : ℕ) : (ℝ × ℝ) × (ℝ × ℝ) :=
  let alpha := 1 - confidence_level
  let z := ppf (1 - alpha / 2)
  let se_beta := beta / Real.sqrt (n : ℝ)
  let se_eta := eta / Real.sqrt (n : ℝ)
  ((max 0.1 (beta - z * se_beta), beta + z * se_beta),
   (max 0.1 (eta - z * se_eta), eta + z * se_eta))

/-- Embeds `WeibullAnalysis._fit_mle`.  The multi-start Nelder-Mead search is
a black-box scipy optimizer; its outcome — the best feasible optimum over the
nine starting points, or `none` when every attempt failed — is the parameter
`bestResult`.  The code then falls back to rank regression when there is no
optimum or when validation fails (`beta <= 0 or beta > 20 or eta <= 0`). -/
noncomputable def fit_mle (failures : List ℝ) (bestResult : Option (ℝ × ℝ)) :
    Except PyError (ℝ × ℝ) :=
  match bestResult with
  | none => fit_rank_regression failures
  | some be =>
    if be.1 ≤ 0 ∨ be.1 > 20 ∨ be.2 ≤ 0 then fit_rank_regression failures
    else Except.ok be

/-- Results dictionary stored by `WeibullAnalysis.fit`. -/
structure FitResults where
  beta : ℝ
  eta : ℝ
  beta_ci : ℝ × ℝ
  eta_ci : ℝ × ℝ
  method : String
  confidence_level : ℝ
  n_failures : ℕ
  n_censored : ℕ
  time_unit : String

/-- State of a `WeibullAnalysis` object: the partitioned data plus the
`self.results` slot (`none` before a successful fit). -/
structure WState where
  failures : List ℝ
  censored : List ℝ
  time_unit : String
  results : Option FitResults

/-- Shared tail of `WeibullAnalysis.fit` once a method produced `(beta, eta)`:
compute the confidence intervals, store the results dictionary, return it. -/
noncomputable def fitStore (st : WState) (method : String) (confidence_level : ℝ)
    (ppf : ℝ → ℝ) (be : ℝ × ℝ) : WState × Except PyError FitResults :=
  let cis := calculate_confidence_intervals be.1 be.2 confidence_level ppf st.failures.length
  let res : FitResults :=
    { beta := be.1, eta := be.2, beta_ci := cis.1, eta_ci := cis.2
      method := method, confidence_level := confidence_level
      n_failures := st.failures.length, n_censored := st.censored.length
      time_unit := st.time_unit }
  ({ st with results := some res }, Except.ok res)

/-- Outcome handling shared by the two known-method branches of `fit`:
an exception raised inside the estimation method propagates out of `fit`
with the state untouched; a returned pair flows into the storing tail. -/
noncomputable def fitDispatch (st : WState) (method : String)
    (confidence_level : ℝ) (ppf : ℝ → ℝ) :
    Except PyError (ℝ × ℝ) → WState × Except PyError FitResults
  | Except.error e => (st, Except.error e)
  | Except.ok be => fitStore st method confidence_level ppf be

/-- Embeds `WeibullAnalysis.fit` as a state transformer: the returned state is
the analysis object after the call.  Python exception semantics: when the
method dispatch raises `ValueError`, or the chosen estimation method raises,
`self.results` was never assigned, so the state comes back unchanged. -/
noncomputable def fitRun (st : WState) (method : String) (confidence_level : ℝ)
    (ppf : ℝ → ℝ) (mleBest : Option (ℝ × ℝ)) : WState × Except PyError FitResults :=
  if method = "mle" then
    fitDispatch st method confidence_level ppf (fit_mle st.failures mleBest)
  else if method = "rr" then
    fitDispatch st method confidence_level ppf (fit_rank_regression st.failures)
  else
    (st, Except.error (PyError.valueError ("Método desconhecido: " ++ method)))

/-- Result of `StatisticalTests.anderson_darling_test`. -/
structure ADResult where
  test_name : String
  statistic : ℝ
  critical_value : ℝ
  significance_level : ℝ
  passed : Prop
  interpretation : String

/-- Result of `StatisticalTests.kolmogorov_smirnov_test`. -/
structure KSResult where
  test_name : String
  statistic : ℝ
  p_value : ℝ
  significance_level : ℝ
  passed : Prop
  interpretation : String

/-- Result of `StatisticalTests.coefficient_of_determination`. -/
structure R2Result where
  r_squared : ℝ
  quality : String

/-- Dictionary built by `StatisticalTests.run_all_tests`. -/
structure AllTests where
  anderson_darling : ADResult
  kolmogorov_smirnov : KSResult
  r_squared : R2Result

/-- Embeds `StatisticalTests.anderson_darling_test`.  The call
`stats.anderson(transformed, dist=expon)` is a black-box scipy routine; its
outcome — the statistic and the 5% critical value, or the exception it raises
on input it cannot handle — is the oracle `statsAnderson`. -/
noncomputable def anderson_darling_test
    (statsAnderson : List ℝ → Except PyError (ℝ × ℝ))
    (failures : List ℝ) (beta eta : ℝ) : Except PyError ADResult := do
  let transformed := failures.map (fun t => (t / eta) ^ beta)
  let sc ← statsAnderson transformed
  Except.ok
    { test_name := "Anderson-Darling"
      statistic := sc.1
      critical_value := sc.2
      significance_level := 0.05
      passed := sc.1 < sc.2
      interpretation :=
        if sc.1 < sc.2 then "Dados seguem distribuição de Weibull"
        else "Dados podem não seguir distribuição de Weibull" }

/-- Embeds `StatisticalTests.kolmogorov_smirnov_test`; `stats.kstest` applied
to the failures and the fitted Weibull CDF closure is the oracle `kstest`,
yielding the statistic and p-value or raising. -/
noncomputable def kolmogorov_smirnov_test
    (kstest : List ℝ → Except PyError (ℝ × ℝ))
    (failures : List ℝ) : Except PyError KSResult := do
  let sp ← kstest failures
  Except.ok
    { test_name := "Kolmogorov-Smirnov"
      statistic := sp.1
      p_value := sp.2
      significance_level := 0.05
      passed := sp.2 > 0.05
      interpretation :=
        if sp.2 > 0.05 then "Dados seguem distribuição de Weibull"
        else "Dados podem não seguir distribuição de Weibull" }

/-- Embeds `StatisticalTests.coefficient_of_determination` (pure numpy
arithmetic, fully embedded): observed median ranks against the fitted Weibull
CDF, `R² = 1 − SS_res/SS_tot`, bucketed into a quality label. -/
noncomputable def coefficient_of_determination (failures : List ℝ)
    (beta eta : ℝ) : R2Result :=
  let sorted := npSort failures
  let n := sorted.length
  let observed : List ℝ :=
    (List.range n).map (fun i : ℕ => ((i : ℝ) + 1 - 0.3) / ((n : ℝ) + 0.4))
  let predicted := sorted.map (fun t => 1 - Real.exp (-((t / eta) ^ beta)))
  let ss_res := ((observed.zip predicted).map (fun p => (p.1 - p.2) ^ 2)).sum
  let obs_mean := observed.sum / (observed.length : ℝ)
  let ss_tot := (observed.map (fun o => (o - obs_mean) ^ 2)).sum
  let r2 := 1 - ss_res / ss_tot
  { r_squared := r2
    quality :=
      if r2 > 0.95 then "Excelente"
      else if r2 > 0.90 then "Bom"
      else if r2 > 0.80 then "Aceitável"
      else "Pobre" }

/-- Embeds `StatisticalTests.run_all_tests`: the three tests are evaluated in
order while the result dictionary is built; the source has no exception
handling, so an exception from any test propagates out of `run_all_tests`
and the remaining tests are never evaluated. -/
noncomputable def run_all_tests
    (statsAnderson kstest : List ℝ → Except PyError (ℝ × ℝ))
    (failures : List ℝ) (beta eta : ℝ) : Except PyError AllTests := do
  let ad ← anderson_darling_test statsAnderson failures beta eta
  let ks ← kolmogorov_smirnov_test kstest failures
  Except.ok
    { anderson_darling := ad
      kolmogorov_smirnov := ks
      r_squared := coefficient_of_determination failures beta eta }

/-! ## Theorems -/

/-- Applying one boolean mask, built from a predicate on the second of two
parallel arrays, to the first array is the same as filtering the zipped pairs
and projecting the first components. -/
theorem maskSelect_map_pred_fst {α β : Type} (p : β → Bool) :
    ∀ (ts : List α) (rs : List β), ts.length = rs.length →
    maskSelect ts (rs.map p) = ((ts.zip rs).filter (fun q => p q.2)).map Prod.fst := by
  intro ts
  induction ts with
  | nil => intro rs _; simp [maskSelect]
  | cons t ts ih =>
    intro rs h
    cases rs with
    | nil => simp at h
    | cons r rs =>
      simp only [List.length_cons, Nat.succ_inj] at h
      simp only [List.map_cons, maskSelect, List.zip_cons_cons, List.filter_cons]
      by_cases hp : p r
      · have := ih rs h
        simp only [maskSelect] at this
        simp [this, hp]
      · have := ih rs h
        simp only [maskSelect] at this
        simp [this, hp]

/-- Companion of `maskSelect_map_pred_fst` for the array the predicate reads:
masking it selects the second components of the filtered zipped pairs. -/
theorem maskSelect_map_pred_snd {α β : Type} (p : β → Bool) :
    ∀ (ts : List α) (rs : List β), ts.length = rs.length →
    maskSelect rs (rs.map p) = ((ts.zip rs).filter (fun q => p q.2)).map Prod.snd := by
  intro ts
  induction ts with
  | nil =>
    intro rs h
    have : rs = [] := List.length_eq_zero.mp h.symm
    simp [this, maskSelect]
  | cons t ts ih =>
    intro rs h
    cases rs with
    | nil => simp at h
    | cons r rs =>
      simp only [List.length_cons, Nat.succ_inj] at h
      simp only [List.map_cons, maskSelect, List.zip_cons_cons, List.filter_cons]
      by_cases hp : p r
      · have := ih rs h
        simp only [maskSelect] at this
        simp [this, hp]
      · have := ih rs h
        simp only [maskSelect] at this
        simp [this, hp]

/-- C6: on any dataset with at least 3 failures, `_fit_rank_regression`
computes exactly the pipeline the spec describes: sort the failures, form
median ranks `(i − 0.3)/(n + 0.4)`, discard rank values outside
`(0.001, 0.999)` together with their paired failure times, regress
`y = ln(−ln(1 − rank))` on `x = ln(time)` by ordinary least squares, take
shape = slope and scale = `exp(−intercept/shape)`, and clamp the shape into
`[0.1, 10]` and the scale into `[0.5·min, 2·max]` of the retained failures. -/
theorem c6_rank_regression_matches_spec (failures : List ℝ)
    (_hn : 3 ≤ failures.length) :
    fit_rank_regression failures = rr_spec failures := by
  simp only [fit_rank_regression, rr_spec]
  have hlen : (npSort failures).length =
      (median_ranks (npSort failures).length).length := by
    rw [median_ranks, List.length_map, List.length_range]
  rw [maskSelect_map_pred_fst validRank _ _ hlen,
      maskSelect_map_pred_snd validRank _ _ hlen]

/-- Witness for C6 at the concrete dataset `[1, 2, 3]`. -/
theorem c6_witness :
    3 ≤ ([1, 2, 3] : List ℝ).length ∧
    fit_rank_regression [1, 2, 3] = rr_spec [1, 2, 3] :=
  ⟨by decide, c6_rank_regression_matches_spec [1, 2, 3] (by decide)⟩

/-- Filtering the rows on a status code and projecting the times agrees with
the direct recursive selection. -/
theorem filter_status_map_eq_selectByStatus (s : ℤ) :
    ∀ df : List Row,
      (df.filter (fun r => r.status == s)).map Row.tempo_falha = selectByStatus s df := by
  intro df
  induction df with
  | nil => rfl
  | cons r rs ih =>
    by_cases h : r.status = s
    · simp [List.filter_cons, h, selectByStatus, ih]
    · simp [List.filter_cons, h, selectByStatus, ih]

/-- C10: `WeibullAnalysis.__init__` partitions the input table so that exactly
the rows with status 1 become the failure times and exactly the rows with
status 0 the censored times, in table order; a row with any other status code
is silently excluded from both sequences — appending such a row to the table
changes neither sequence, so it can contribute to no fit or test. -/
theorem c10_init_partitions_by_status (df : List Row) :
    failuresOf df = selectByStatus 1 df ∧
    censoredOf df = selectByStatus 0 df ∧
    ∀ r : Row, r.status ≠ 1 → r.status ≠ 0 →
      failuresOf (df ++ [r]) = failuresOf df ∧
      censoredOf (df ++ [r]) = censoredOf df := by
  refine ⟨filter_status_map_eq_selectByStatus 1 df,
          filter_status_map_eq_selectByStatus 0 df, ?_⟩
  intro r h1 h0
  constructor <;>
    simp [failuresOf, censoredOf, List.filter_append, List.filter_cons, h1, h0]

/-- Witness for C10: a status-2 row joins neither partition. -/
theorem c10_witness :
    failuresOf ([⟨3, 1⟩] ++ [⟨5, 2⟩]) = failuresOf [⟨3, 1⟩] ∧
    censoredOf ([⟨3, 1⟩] ++ [⟨5, 2⟩]) = censoredOf [⟨3, 1⟩] :=
  (c10_init_partitions_by_status [⟨3, 1⟩]).2.2 ⟨5, 2⟩ (by decide) (by decide)

/-- C9: for every method string other than mle and rr, `fit` raises
`ValueError` and the stored results are untouched — the state returned under
Python exception semantics is exactly the input state, since the `raise`
happens before `self.results` is assigned. -/
theorem c9_fit_unknown_method (st : WState) (method : String)
    (confidence_level : ℝ) (ppf : ℝ → ℝ) (mleBest : Option (ℝ × ℝ))
    (hm : method ≠ "mle") (hr : method ≠ "rr") :
    fitRun st method confidence_level ppf mleBest =
      (st, Except.error (PyError.valueError ("Método desconhecido: " ++ method))) := by
  simp [fitRun, hm, hr]

/-- Witness for C9 at the unknown method string abc. -/
theorem c9_witness :
    ("abc" : String) ≠ "mle" ∧ ("abc" : String) ≠ "rr" ∧
    fitRun ⟨[1, 2], [], "h", none⟩ "abc" 0.95 (fun _ => 1.96) none =
      (⟨[1, 2], [], "h", none⟩,
       Except.error (PyError.valueError ("Método desconhecido: " ++ "abc"))) :=
  ⟨by decide, by decide,
   c9_fit_unknown_method ⟨[1, 2], [], "h", none⟩ "abc" 0.95 (fun _ => 1.96) none
     (by decide) (by decide)⟩

/-- Mapping the clamp continuation over a `np.polyfit` outcome yields either
the `TypeError` of the empty-input guard or a value — never the spec-taxonomy
insufficient-data error. -/
theorem map_polyfit1_ne_insufficient {α : Type} (f : ℝ × ℝ → α) (xs ys : List ℝ) :
    Except.map f (polyfit1 xs ys) ≠ Except.error PyError.insufficientData := by
  unfold polyfit1
  by_cases h : xs.isEmpty = true
  · simp [h, Except.map]
  · simp [h, Except.map]

/-- The rank-regression path can raise `TypeError` (empty x after the mask,
reachable with zero failures) but never an insufficient-data error. -/
theorem fit_rank_regression_ne_insufficient (failures : List ℝ) :
    fit_rank_regression failures ≠ Except.error PyError.insufficientData := by
  simp only [fit_rank_regression]
  exact map_polyfit1_ne_insufficient _ _ _

/-- The MLE path — optimizer outcome validated, rank-regression fallback
otherwise — likewise never produces an insufficient-data error. -/
theorem fit_mle_ne_insufficient (failures : List ℝ) (o : Option (ℝ × ℝ)) :
    fit_mle failures o ≠ Except.error PyError.insufficientData := by
  cases o with
  | none => exact fit_rank_regression_ne_insufficient failures
  | some be =>
    simp only [fit_mle]
    by_cases h : be.1 ≤ 0 ∨ be.1 > 20 ∨ be.2 ≤ 0
    · simpa [h] using fit_rank_regression_ne_insufficient failures
    · simp [h]

/-- The dispatch tail of `fit` preserves not-insufficient-data: it either
propagates the method error or stores a successful result. -/
theorem fitDispatch_ne_insufficient (st : WState) (method : String)
    (confidence_level : ℝ) (ppf : ℝ → ℝ) (r : Except PyError (ℝ × ℝ))
    (hr : r ≠ Except.error PyError.insufficientData) :
    (fitDispatch st method confidence_level ppf r).2 ≠
      Except.error PyError.insufficientData := by
  cases r with
  | error e => simpa [fitDispatch] using hr
  | ok be => simp [fitDispatch, fitStore]

/-- Unfolding `fit` on the rr branch: the method string comparisons resolve
and the rank-regression outcome is dispatched. -/
theorem fitRun_rr_eq (st : WState) (confidence_level : ℝ) (ppf : ℝ → ℝ)
    (o : Option (ℝ × ℝ)) :
    fitRun st "rr" confidence_level ppf o =
      fitDispatch st "rr" confidence_level ppf (fit_rank_regression st.failures) := by
  unfold fitRun
  rw [if_neg (by decide : ¬ ("rr" : String) = "mle"), if_pos rfl]

/-- On a two-failure dataset the rank regression succeeds: both median ranks
(0.7/2.4 and 1.7/2.4) survive the (0.001, 0.999) mask, so `np.polyfit`
receives a non-empty two-point x vector. -/
theorem fit_rank_regression_two_isOk (t1 t2 : ℝ) :
    (fit_rank_regression [t1, t2]).isOk = true := by
  have hlen : (npSort [t1, t2]).length = 2 := by
    simp [npSort]
  obtain ⟨a, b, hab⟩ := List.length_eq_two.mp hlen
  have hmask : (median_ranks 2).map validRank = [true, true] := by
    simp [median_ranks, validRank, List.range_succ]
    norm_num
  simp only [fit_rank_regression]
  rw [hab]
  have h2 : ([a, b] : List ℝ).length = 2 := rfl
  rw [h2, hmask]
  rfl

/-- C1 counterexample: on a dataset with exactly 2 failures, `fit` with the
RR method returns a result without raising anything — there is no defensive
failure-count check in `fit` and no `InsufficientDataError` class anywhere in
the code. -/
theorem c1_counterexample :
    (WState.mk [10, 20] [] "h" none).failures.length < 3 ∧
    (fitRun ⟨[10, 20], [], "h", none⟩ "rr" 0.95 (fun _ => 1.96) none).2.isOk = true := by
  refine ⟨by decide, ?_⟩
  rw [fitRun_rr_eq]
  have hproj : (⟨[10, 20], [], "h", none⟩ : WState).failures = [10, 20] := rfl
  rw [hproj]
  have h2 := fit_rank_regression_two_isOk (10 : ℝ) 20
  cases hfr : fit_rank_regression [(10 : ℝ), 20] with
  | error e => rw [hfr] at h2; simp [Except.isOk, Except.toBool] at h2
  | ok be => simp [hfr, fitDispatch, fitStore, Except.isOk, Except.toBool]

/-- C1 amended: `fit` never raises `InsufficientDataError` — the class does
not exist in the code; the minimum-failures rule lives upstream in
`DataValidator`, which records a message instead of raising — and on a
dataset with exactly 2 failures the rr method returns a fit result.  (With
zero failures `fit` still raises, but a `TypeError` from the `np.polyfit`
empty-input guard, not the spec-named error.) -/
theorem c1_fit_never_insufficient (st : WState) (method : String)
    (confidence_level : ℝ) (ppf : ℝ → ℝ) (mleBest : Option (ℝ × ℝ)) :
    (fitRun st method confidence_level ppf mleBest).2 ≠
      Except.error PyError.insufficientData ∧
    (∀ t1 t2 : ℝ, st.failures = [t1, t2] → method = "rr" →
      ((fitRun st method confidence_level ppf mleBest).2).isOk = true) := by
  constructor
  · unfold fitRun
    by_cases h1 : method = "mle"
    · rw [if_pos h1]
      exact fitDispatch_ne_insufficient _ _ _ _ _ (fit_mle_ne_insufficient _ _)
    · rw [if_neg h1]
      by_cases h2 : method = "rr"
      · rw [if_pos h2]
        exact fitDispatch_ne_insufficient _ _ _ _ _
          (fit_rank_regression_ne_insufficient _)
      · rw [if_neg h2]
        simp
  · intro t1 t2 hf hm
    subst hm
    rw [fitRun_rr_eq, hf]
    have h2 := fit_rank_regression_two_isOk t1 t2
    cases hfr : fit_rank_regression [t1, t2] with
    | error e => rw [hfr] at h2; simp [Except.isOk, Except.toBool] at h2
    | ok be => simp [hfr, fitDispatch, fitStore, Except.isOk, Except.toBool]

/-- Witness for C1 amended, at a concrete 2-failure state and the rr method. -/
theorem c1_witness :
    ((⟨[7, 9], [], "u", none⟩ : WState).failures = [7, 9]) ∧
    (("rr" : String) = "rr") ∧
    (fitRun ⟨[7, 9], [], "u", none⟩ "rr" 0.9 (fun _ => 1.64) none).2.isOk = true :=
  ⟨rfl, rfl,
   (c1_fit_never_insufficient ⟨[7, 9], [], "u", none⟩ "rr" 0.9 (fun _ => 1.64) none).2
     7 9 rfl rfl⟩

/-- C2: `_calculate_variance` never returns the spec variance — it raises
`TypeError` for every (β, η), because `scipy.stats.gamma` is the gamma
distribution family (calling it freezes a distribution object) rather than the
Euler gamma function, so `stats.gamma(1 + 1/beta)**2` is ill-typed; the
sibling module imports `gamma` from `scipy.special` with a comment marking
exactly this correction. -/
theorem c2_variance_raises_typeerror (beta eta : ℝ) :
    calculate_variance beta eta = Except.error PyError.typeError ∧
    calculate_variance beta eta ≠ Except.ok (variance_spec beta eta) := by
  have h : calculate_variance beta eta = Except.error PyError.typeError := rfl
  exact ⟨h, by rw [h]; exact fun hc => Except.noConfusion hc⟩

/-- C3 counterexample: at shape 0.95 — inside the claimed useful-life band
`[0.9, 1.1]` — the interpreter returns the infant-mortality classification,
because the source tests `beta < 1` before the band condition. -/
theorem c3_counterexample :
    (0.9 : ℝ) ≤ 0.95 ∧ (0.95 : ℝ) ≤ 1.1 ∧
    (get_interpretation 0.95).failure_mode = "Mortalidade Infantil" ∧
    (get_interpretation 0.95).failure_mode ≠ "Vida Útil (Falhas Aleatórias)" := by
  have h : (0.95 : ℝ) < 1 := by norm_num
  refine ⟨by norm_num, by norm_num, ?_, ?_⟩
  · simp [get_interpretation, h]
  · simp [get_interpretation, h]

/-- C3 amended: every shape below 1 — including the part `[0.9, 1)` of the
claimed band — is classified as infant mortality (decreasing hazard); the
useful-life classification (constant hazard, condition-based maintenance) is
returned exactly for `1 ≤ β ≤ 1.1`; above 1.1 the classification is wear-out
(increasing hazard). -/
theorem c3_interpretation_bands (beta : ℝ) :
    (beta < 1 → (get_interpretation beta).failure_mode = "Mortalidade Infantil") ∧
    (1 ≤ beta → beta ≤ 1.1 →
      (get_interpretation beta).failure_mode = "Vida Útil (Falhas Aleatórias)") ∧
    (1.1 < beta → (get_interpretation beta).failure_mode = "Desgaste") := by
  refine ⟨fun h => by simp [get_interpretation, h], fun h1 h2 => ?_, fun h => ?_⟩
  · have hn : ¬ beta < 1 := not_lt.mpr h1
    have hb : (0.9 : ℝ) ≤ beta := le_trans (by norm_num) h1
    simp [get_interpretation, hn, hb, h2]
  · have hn : ¬ beta < 1 := not_lt.mpr (le_trans (by norm_num) h.le)
    have hb : ¬ ((0.9 : ℝ) ≤ beta ∧ beta ≤ 1.1) := by
      rintro ⟨-, hb2⟩
      exact absurd h (not_lt.mpr hb2)
    simp [get_interpretation, hn, hb]

/-- Witness for C3 amended at shape 1.05, inside the surviving band. -/
theorem c3_witness :
    (1 : ℝ) ≤ 1.05 ∧ (1.05 : ℝ) ≤ 1.1 ∧
    (get_interpretation 1.05).failure_mode = "Vida Útil (Falhas Aleatórias)" :=
  ⟨by norm_num, by norm_num,
   (c3_interpretation_bands 1.05).2.1 (by norm_num) (by norm_num)⟩

/-- C4 counterexample: when the Anderson-Darling scipy call fails on its
input, `run_all_tests` propagates that exception unchanged — not a
`GoodnessOfFitError` naming the test — and no result dictionary is produced,
so the other tests are neither run nor reported. -/
theorem c4_counterexample :
    run_all_tests (fun _ => Except.error (PyError.valueError ("anderson failed")))
        (fun _ => Except.ok (0.1, 0.9)) [1, 2, 3] 2 100
      = Except.error (PyError.valueError ("anderson failed")) ∧
    run_all_tests (fun _ => Except.error (PyError.valueError ("anderson failed")))
        (fun _ => Except.ok (0.1, 0.9)) [1, 2, 3] 2 100
      ≠ Except.error (PyError.goodnessOfFit ("Anderson-Darling")) := by
  have h : run_all_tests (fun _ => Except.error (PyError.valueError ("anderson failed")))
      (fun _ => Except.ok (0.1, 0.9)) [1, 2, 3] 2 100
    = Except.error (PyError.valueError ("anderson failed")) := rfl
  exact ⟨h, by rw [h]; simp⟩

/-- C4 amended: `run_all_tests` has no per-test error handling: an exception
from the Anderson-Darling call aborts the suite with exactly that exception
and the remaining tests are not reported; likewise a Kolmogorov-Smirnov
failure aborts the suite even after Anderson-Darling succeeded. -/
theorem c4_suite_aborts_on_test_failure (e : PyError)
    (kstest : List ℝ → Except PyError (ℝ × ℝ)) (failures : List ℝ)
    (beta eta s c : ℝ) :
    run_all_tests (fun _ => Except.error e) kstest failures beta eta
      = Except.error e ∧
    run_all_tests (fun _ => Except.ok (s, c)) (fun _ => Except.error e)
        failures beta eta
      = Except.error e :=
  ⟨rfl, rfl⟩

/-- C5 counterexample: with a shape estimate of 0.05 — below the 0.1 floor —
and confidence level 0.95 over 4 failures, the clamped lower bound of the
shape interval is 0.1, which exceeds the estimate, so the claimed containment
`shape_ci[0] ≤ shape` fails. -/
theorem c5_counterexample :
    (0 : ℝ) < 0.05 ∧ (0 : ℝ) < 100 ∧ (0 : ℝ) < 0.95 ∧ (0.95 : ℝ) < 1 ∧ (1 : ℕ) ≤ 4 ∧
    ¬ ((calculate_confidence_intervals 0.05 100 0.95 (fun _ => 1.96) 4).1.1 ≤ 0.05) := by
  refine ⟨by norm_num, by norm_num, by norm_num, by norm_num, by norm_num, ?_⟩
  simp only [calculate_confidence_intervals]
  intro hle
  have h01 := le_trans (le_max_left (0.1 : ℝ)
    (0.05 - (fun _ : ℝ => (1.96 : ℝ)) (1 - (1 - 0.95) / 2) * (0.05 / Real.sqrt ((4 : ℕ) : ℝ)))) hle
  norm_num at h01

/-- C5 amended: the containment `shape_ci[0] ≤ shape ≤ shape_ci[1]` (and the
analogue for the scale) holds whenever the point estimates are at least the
0.1 clamping floor and the normal quantile `z = ppf(1 − (1−confidence)/2)` is
nonnegative (true for every confidence level in (0, 1)); for an estimate
below 0.1 the clamped lower bound can exceed the estimate. -/
theorem c5_ci_contains_estimates (beta eta confidence_level : ℝ) (ppf : ℝ → ℝ)
    (n : ℕ) (hb : 0.1 ≤ beta) (he : 0.1 ≤ eta) (_hn : 1 ≤ n)
    (hz : 0 ≤ ppf (1 - (1 - confidence_level) / 2)) :
    (calculate_confidence_intervals beta eta confidence_level ppf n).1.1 ≤ beta ∧
    beta ≤ (calculate_confidence_intervals beta eta confidence_level ppf n).1.2 ∧
    (calculate_confidence_intervals beta eta confidence_level ppf n).2.1 ≤ eta ∧
    eta ≤ (calculate_confidence_intervals beta eta confidence_level ppf n).2.2 := by
  have hs : 0 ≤ Real.sqrt (n : ℝ) := Real.sqrt_nonneg _
  have hzb : 0 ≤ ppf (1 - (1 - confidence_level) / 2) * (beta / Real.sqrt (n : ℝ)) :=
    mul_nonneg hz (div_nonneg (by linarith) hs)
  have hze : 0 ≤ ppf (1 - (1 - confidence_level) / 2) * (eta / Real.sqrt (n : ℝ)) :=
    mul_nonneg hz (div_nonneg (by linarith) hs)
  simp only [calculate_confidence_intervals]
  exact ⟨max_le hb (by linarith), by linarith, max_le he (by linarith), by linarith⟩

/-- Witness for C5 amended at shape 2, scale 100, confidence 0.95, 4 failures. -/
theorem c5_witness :
    (0.1 : ℝ) ≤ 2 ∧ (0.1 : ℝ) ≤ 100 ∧ (1 : ℕ) ≤ 4 ∧
    (0 : ℝ) ≤ (fun _ : ℝ => (1.96 : ℝ)) (1 - (1 - 0.95) / 2) ∧
    ((calculate_confidence_intervals 2 100 0.95 (fun _ => 1.96) 4).1.1 ≤ 2 ∧
     2 ≤ (calculate_confidence_intervals 2 100 0.95 (fun _ => 1.96) 4).1.2 ∧
     (calculate_confidence_intervals 2 100 0.95 (fun _ => 1.96) 4).2.1 ≤ 100 ∧
     100 ≤ (calculate_confidence_intervals 2 100 0.95 (fun _ => 1.96) 4).2.2) :=
  ⟨by norm_num, by norm_num, by norm_num, by norm_num,
   c5_ci_contains_estimates 2 100 0.95 (fun _ => 1.96) 4
     (by norm_num) (by norm_num) (by norm_num) (by norm_num)⟩

/-- C7: `mission_reliability` returns the actual reliability
`exp(−(t/η)^β)`, meets the requirement exactly when the actual reliability is
at least the required one, reports the margin as their difference, and inverts
the reliability function for the required time — `η·(−ln r)^(1/β)` when
`r < 1` and 0 when `r ≥ 1`; the function is total, so no branch raises. -/
theorem c7_mission_reliability (beta eta mission_time required : ℝ)
    (_hb : 0 < beta) (_he : 0 < eta) (_ht : 0 ≤ mission_time) :
    (mission_reliability beta eta mission_time required).actual_reliability
        = Real.exp (-((mission_time / eta) ^ beta)) ∧
    ((mission_reliability beta eta mission_time required).meets_requirement ↔
        required ≤ Real.exp (-((mission_time / eta) ^ beta))) ∧
    (mission_reliability beta eta mission_time required).reliability_margin
        = Real.exp (-((mission_time / eta) ^ beta)) - required ∧
    (required < 1 →
      (mission_reliability beta eta mission_time required).time_for_required_reliability
        = eta * (-Real.log required) ^ (1 / beta)) ∧
    (1 ≤ required →
      (mission_reliability beta eta mission_time required).time_for_required_reliability
        = 0) := by
  refine ⟨rfl, Iff.rfl, rfl, fun h => ?_, fun h => ?_⟩
  · simp [mission_reliability, h]
  · simp [mission_reliability, not_lt.mpr h]

/-- Witness for C7 at (β, η, t, r) = (1, 1, 0, 1/2). -/
theorem c7_witness :
    (0 : ℝ) < 1 ∧ (0 : ℝ) ≤ 0 ∧ (1 / 2 : ℝ) < 1 ∧
    (mission_reliability 1 1 0 (1 / 2)).time_for_required_reliability
      = 1 * (-Real.log (1 / 2)) ^ (1 / (1 : ℝ)) :=
  ⟨one_pos, le_refl 0, by norm_num,
   (c7_mission_reliability 1 1 0 (1 / 2) one_pos one_pos (le_refl 0)).2.2.2.1
     (by norm_num)⟩

/-- C8: `b_life(50)` equals `median_life()` exactly over the reals, since
`−ln(1 − 50/100) = ln 2`; this holds for every parameter pair. -/
theorem c8_b50_eq_median (beta eta : ℝ) :
    b_life beta eta 50 = median_life beta eta := by
  unfold b_life median_life
  have h : (1 : ℝ) - 50 / 100 = 2⁻¹ := by norm_num
  rw [h, Real.log_inv, neg_neg]

end WRA
